import Mathlib

/-!
Verification of the diagnostic-reporting layer of bulloak (`src/error.rs`):
the `Error` aggregate, the `Formatter` renderer and the `notate` code-frame
algorithm, shallowly embedded as pure functions on `String` and `Nat`.
-/

namespace Bulloak

/-- A position in the source text: 0-based byte offset, 1-based line and
column. Embeds `span::Position`. -/
structure Position where
  offset : Nat
  line : Nat
  column : Nat
deriving DecidableEq

/-- A span of source text bounded by a start and an end position.
Embeds `span::Span`. -/
structure Span where
  start : Position
  «end» : Position
deriving DecidableEq

/-- Modelled from the spec: the string-repeat helper `utils::repeat_str`
(its definition lives outside `error.rs`); it repeats the string `s`
exactly `n` times. -/
def repeat_str (s : String) (n : Nat) : String :=
  match n with
  | 0 => ""
  | Nat.succ k => s ++ repeat_str s k

/-- Strip a single trailing carriage return from a line, as Rust
`str::lines` does for a line that was terminated by a newline (the `\r` of
a `\r\n` terminator). -/
def stripCR (l : List Char) : List Char :=
  match l.getLast? with
  | some c => if c = '\r' then l.dropLast else l
  | none => l

/-- Split a character list at newline characters; the chunk after the last
newline is kept even when it is empty, so the result is always non-empty. -/
def splitNL : List Char → List (List Char)
  | [] => [[]]
  | c :: cs =>
    if c = '\n' then [] :: splitNL cs
    else
      match splitNL cs with
      | [] => [[c]]
      | l :: ls => (c :: l) :: ls

/-- Convert newline-separated chunks to lines: every chunk except the last
was terminated by a newline, so a `\r\n` terminator loses its carriage
return; the final un-terminated chunk keeps a lone trailing `\r`. -/
def stripLines : List (List Char) → List String
  | [] => []
  | [l] => [String.mk l]
  | l :: ls => String.mk (stripCR l) :: stripLines ls

/-- Embedding of Rust `str::lines` as used by `notate`: newline-terminated
splitting, so a trailing newline yields no extra empty line and the empty
string yields no lines at all. A carriage return is stripped only as part
of a `\r\n` terminator: when the text ends with a newline (or is empty)
every remaining chunk was newline-terminated, otherwise the final chunk
is kept verbatim, lone trailing `\r` included. -/
def rustLines (s : String) : List String :=
  match (splitNL s.data).getLast? with
  | some [] => ((splitNL s.data).dropLast).map (fun l => String.mk (stripCR l))
  | _ => stripLines (splitNL s.data)

/-- The `Formatter` of `error.rs`: it binds the original source text, the
error kind and the span of the error. The generic kind `E : fmt::Display`
is embedded as the string it renders to. -/
structure Formatter where
  text : String
  err : String
  span : Span

/-- Embedding of `notate`: the code frame, that is the source line at
`span.start.line` followed by `column - 1` padding spaces and the caret
underline, or the empty string when that line does not exist. `Nat`
subtraction coincides with Rust `usize` subtraction whenever
`1 ≤ line` and `1 ≤ column`; the underflowing subtractions are analysed
through `notateChecked` below. -/
def notate (f : Formatter) : String :=
  match (rustLines f.text).get? (f.span.start.line - 1) with
  | some line =>
    line ++ "\n" ++ repeat_str " " (f.span.start.column - 1) ++
      repeat_str "^" (max 1 (f.span.«end».column - f.span.start.column + 1)) ++ "\n"
  | none => ""

/-- Unsigned subtraction with an explicit underflow check: `none` models
the underflow of `a - b` on `usize` when `b > a`. -/
def checkedSub (a b : Nat) : Option Nat :=
  if b ≤ a then some (a - b) else none

/-- The `notate` algorithm with each unsigned subtraction checked: the
result is `none` exactly when one of the two subtractions of `notate`
underflows on the given input (the `saturating_sub` of the caret count
never underflows and stays a saturating subtraction). -/
def notateChecked (f : Formatter) : Option String :=
  match checkedSub f.span.start.line 1 with
  | none => none
  | some idx =>
    match (rustLines f.text).get? idx with
    | none => some ""
    | some line =>
      match checkedSub f.span.start.column 1 with
      | none => none
      | some pad =>
        some (line ++ "\n" ++ repeat_str " " pad ++
          repeat_str "^" (max 1 (f.span.«end».column - f.span.start.column + 1)) ++ "\n")

/-- Embedding of `impl fmt::Display for Formatter`: the full diagnostic
block. The divider is written first; a degenerate span
(`start.offset == end.offset == 0`) stops after the header with no code
frame and no footer; otherwise header, blank line, code frame and footer
follow. -/
def renderFormatter (f : Formatter) : String :=
  if f.span.start.offset = f.span.«end».offset ∧ f.span.start.offset = 0 then
    repeat_str "•" 79 ++ "\n" ++ "bulloak error: " ++ f.err
  else
    repeat_str "•" 79 ++ "\n" ++ "bulloak error: " ++ f.err ++ "\n" ++ "\n" ++
      (notate f ++ "\n") ++
      "--- (line " ++ toString f.span.start.line ++ ", column " ++
      toString f.span.start.column ++ ") ---" ++ "\n"

/-- Modelled from the spec: an atomic stage error (the tokenizer, parser
and semantics error types live outside `error.rs`); it exposes its source
text, its error kind (as the string the kind renders to) and its span. -/
structure AtomicError where
  text : String
  kind : String
  span : Span

/-- Embedding of the three `From<&... Error> for Formatter` conversions: a
`Formatter` borrowing the atomic error's text, kind and span. -/
def Formatter.ofAtomic (e : AtomicError) : Formatter :=
  { text := e.text, err := e.kind, span := e.span }

/-- Modelled from the spec: rendering one atomic stage error constructs a
`Formatter` from it and renders the diagnostic block. -/
def renderAtomic (e : AtomicError) : String :=
  renderFormatter (Formatter.ofAtomic e)

/-- Embedding of `enum Error` from `error.rs`, including the hidden
forward-compatibility variant. -/
inductive Error where
  | Tokenize (e : AtomicError)
  | Parse (e : AtomicError)
  | Semantic (errors : List AtomicError)
  | __Nonexhaustive

/-- Embedding of `impl From<tokenizer::Error> for Error`. -/
def Error.fromTokenizer (e : AtomicError) : Error :=
  Error.Tokenize e

/-- Embedding of `impl From<parser::Error> for Error`. -/
def Error.fromParser (e : AtomicError) : Error :=
  Error.Parse e

/-- Embedding of `impl From<Vec<semantics::Error>> for Error`. -/
def Error.fromSemantics (errors : List AtomicError) : Error :=
  Error.Semantic errors

/-- Embedding of `impl fmt::Display for Error`: `none` models the
`unreachable!()` panic of the catch-all arm; the `Semantic` arm is the
source's write loop, a left fold over the contained errors. -/
def Error.fmt : Error → Option String
  | Error.Parse x => some (renderAtomic x)
  | Error.Tokenize x => some (renderAtomic x)
  | Error.Semantic errors => some (errors.foldl (fun acc x => acc ++ renderAtomic x) "")
  | Error.__Nonexhaustive => none

/-- The rendered repetition of a one-character string has exactly `n`
characters times the base length. -/
theorem repeat_str_length (s : String) (n : Nat) :
    (repeat_str s n).length = n * s.length := by
  induction n with
  | zero => simp [repeat_str]
  | succ k ih =>
    simp [repeat_str, String.length_append, ih, Nat.succ_mul]
    omega

/-- C1 (counterexample): for a degenerate span the rendered block is not
exactly the string `bulloak error: {kind}` — the divider line is printed
before the header. -/
theorem c1_degenerate_counterexample :
    renderFormatter ⟨"", "k", ⟨⟨0, 1, 1⟩, ⟨0, 1, 1⟩⟩⟩ ≠ "bulloak error: k" := by
  decide

/-- C1 (amended): for every text and kind and every degenerate span
(`start.offset = end.offset = 0`), rendering yields the divider line of 79
bullet characters, a line break, and then exactly `bulloak error: {kind}`,
with no code frame, no footer line and no trailing line break after the
message. -/
theorem c1_render_degenerate (f : Formatter)
    (h1 : f.span.start.offset = 0) (h2 : f.span.«end».offset = 0) :
    renderFormatter f = repeat_str "•" 79 ++ "\n" ++ "bulloak error: " ++ f.err := by
  unfold renderFormatter
  rw [if_pos ⟨by rw [h1, h2], h1⟩]

/-- C1 witness: the amended statement evaluated on a concrete degenerate
span. -/
theorem c1_render_degenerate_witness :
    renderFormatter ⟨"hello", "k", ⟨⟨0, 1, 1⟩, ⟨0, 1, 1⟩⟩⟩ =
      repeat_str "•" 79 ++ "\n" ++ "bulloak error: " ++ "k" :=
  c1_render_degenerate ⟨"hello", "k", ⟨⟨0, 1, 1⟩, ⟨0, 1, 1⟩⟩⟩ rfl rfl

/-- C2: for every text and kind and every well-formed (1-based), in-bounds,
non-degenerate span, rendering yields in this order: the divider line of 79
bullets, the header line `bulloak error: {kind}`, a blank line, the source
line at `span.start.line`, a line of `span.start.column - 1` padding spaces
followed by the carets, a blank line, and the footer line
`--- (line {start.line}, column {start.column}) ---`. -/
theorem c2_render_nondegenerate (f : Formatter) (line : String)
    (_hl : 1 ≤ f.span.start.line) (_hc : 1 ≤ f.span.start.column)
    (hnd : ¬(f.span.start.offset = f.span.«end».offset ∧ f.span.start.offset = 0))
    (hline : (rustLines f.text).get? (f.span.start.line - 1) = some line) :
    renderFormatter f =
      repeat_str "•" 79 ++ "\n" ++ "bulloak error: " ++ f.err ++ "\n" ++ "\n" ++
        (line ++ "\n" ++ repeat_str " " (f.span.start.column - 1) ++
          repeat_str "^" (max 1 (f.span.«end».column - f.span.start.column + 1)) ++
          "\n" ++ "\n") ++
        "--- (line " ++ toString f.span.start.line ++ ", column " ++
        toString f.span.start.column ++ ") ---" ++ "\n" := by
  have hn : notate f = line ++ "\n" ++ repeat_str " " (f.span.start.column - 1) ++
      repeat_str "^" (max 1 (f.span.«end».column - f.span.start.column + 1)) ++ "\n" := by
    unfold notate
    rw [hline]
  unfold renderFormatter
  rw [if_neg hnd, hn]

/-- C2 witness: the block structure evaluated on the span of the source's
own single-error test scenario. -/
theorem c2_render_nondegenerate_witness :
    renderFormatter ⟨"hello\nworld\n", "unexpected token: world", ⟨⟨0, 2, 1⟩, ⟨4, 2, 5⟩⟩⟩ =
      repeat_str "•" 79 ++ "\n" ++ "bulloak error: " ++ "unexpected token: world" ++
        "\n" ++ "\n" ++
        ("world" ++ "\n" ++ repeat_str " " 0 ++ repeat_str "^" 5 ++ "\n" ++ "\n") ++
        "--- (line " ++ toString 2 ++ ", column " ++ toString 1 ++ ") ---" ++ "\n" :=
  c2_render_nondegenerate ⟨"hello\nworld\n", "unexpected token: world", ⟨⟨0, 2, 1⟩, ⟨4, 2, 5⟩⟩⟩
    "world" (by decide) (by decide) (by decide) (by decide)

/-- C3: for every well-formed span whose start line exists in the text, the
caret run emitted by `notate` is exactly
`max 1 (end.column - start.column + 1)` caret characters long, with the
subtraction saturating at zero; the count depends only on the two columns,
never on the length of the selected source line. -/
theorem c3_caret_count (f : Formatter) (line : String)
    (_hl : 1 ≤ f.span.start.line) (_hc : 1 ≤ f.span.start.column)
    (hline : (rustLines f.text).get? (f.span.start.line - 1) = some line) :
    notate f = line ++ "\n" ++ repeat_str " " (f.span.start.column - 1) ++
      repeat_str "^" (max 1 (f.span.«end».column - f.span.start.column + 1)) ++ "\n" ∧
    (repeat_str "^" (max 1 (f.span.«end».column - f.span.start.column + 1))).length =
      max 1 (f.span.«end».column - f.span.start.column + 1) := by
  constructor
  · unfold notate
    rw [hline]
  · rw [repeat_str_length]
    simp
    decide

/-- C3 witness: the caret run on a concrete span with `end.column`
smaller than `start.column`, where the saturating subtraction floors the
count at one caret. -/
theorem c3_caret_count_witness :
    notate ⟨"hello\nworld\n", "k", ⟨⟨8, 2, 3⟩, ⟨8, 2, 1⟩⟩⟩ =
      "world" ++ "\n" ++ repeat_str " " 2 ++ repeat_str "^" 1 ++ "\n" ∧
    (repeat_str "^" 1).length = 1 :=
  c3_caret_count ⟨"hello\nworld\n", "k", ⟨⟨8, 2, 3⟩, ⟨8, 2, 1⟩⟩⟩ "world"
    (by decide) (by decide) (by decide)

/-- C4: rendering the reserved forward-compatibility variant produces no
output (the panic of the `unreachable!()` arm, modelled as `none`), and
under the precondition that the aggregate is `Tokenize`, `Parse` or
`Semantic` the panic branch is unreachable: rendering succeeds. -/
theorem c4_nonexhaustive_panics (e : Error)
    (h : (∃ x, e = Error.Tokenize x) ∨ (∃ x, e = Error.Parse x) ∨
      ∃ es, e = Error.Semantic es) :
    Error.fmt Error.__Nonexhaustive = none ∧ (Error.fmt e).isSome := by
  refine ⟨rfl, ?_⟩
  rcases h with ⟨x, rfl⟩ | ⟨x, rfl⟩ | ⟨es, rfl⟩ <;> rfl

/-- C4 witness: the panic branch is skipped for a concrete `Tokenize`
aggregate. -/
theorem c4_nonexhaustive_panics_witness :
    Error.fmt Error.__Nonexhaustive = none ∧
      (Error.fmt (Error.Tokenize ⟨"", "k", ⟨⟨0, 1, 1⟩, ⟨0, 1, 1⟩⟩⟩)).isSome :=
  c4_nonexhaustive_panics (Error.Tokenize ⟨"", "k", ⟨⟨0, 1, 1⟩, ⟨0, 1, 1⟩⟩⟩)
    (Or.inl ⟨_, rfl⟩)

/-- A left fold of string concatenation over a list equals the accumulator
followed by the right-fold concatenation of the list. -/
theorem foldl_append_eq_foldr (l : List String) (acc : String) :
    l.foldl (fun a b => a ++ b) acc = acc ++ l.foldr (fun a b => a ++ b) "" := by
  induction l generalizing acc with
  | nil => simp
  | cons x xs ih => simp [List.foldl_cons, List.foldr_cons, ih, String.append_assoc]

/-- C5: rendering a `Semantic` aggregate over a non-empty sequence of
atomic errors equals the concatenation, in original sequence order, of the
individually rendered diagnostic blocks, with no separator added between
blocks. -/
theorem c5_semantic_concat (errors : List AtomicError) (_h : errors ≠ []) :
    Error.fmt (Error.Semantic errors) =
      some ((errors.map renderAtomic).foldr (fun a b => a ++ b) "") := by
  show some (errors.foldl (fun acc x => acc ++ renderAtomic x) "") = _
  have h1 : errors.foldl (fun acc x => acc ++ renderAtomic x) "" =
      (errors.map renderAtomic).foldl (fun a b => a ++ b) "" :=
    (List.foldl_map renderAtomic (fun a b => a ++ b) errors "").symm
  rw [h1, foldl_append_eq_foldr, String.empty_append]

/-- C5 witness: the two-error aggregate of the source's own multi-error
test renders as the concatenation of the two blocks in order. -/
theorem c5_semantic_concat_witness :
    Error.fmt (Error.Semantic
        [⟨"a\nb", "k1", ⟨⟨0, 1, 1⟩, ⟨0, 1, 1⟩⟩⟩, ⟨"a\nb", "k2", ⟨⟨2, 2, 1⟩, ⟨2, 2, 1⟩⟩⟩]) =
      some (([(⟨"a\nb", "k1", ⟨⟨0, 1, 1⟩, ⟨0, 1, 1⟩⟩⟩ : AtomicError),
          ⟨"a\nb", "k2", ⟨⟨2, 2, 1⟩, ⟨2, 2, 1⟩⟩⟩].map renderAtomic).foldr
        (fun a b => a ++ b) "") :=
  c5_semantic_concat
    [⟨"a\nb", "k1", ⟨⟨0, 1, 1⟩, ⟨0, 1, 1⟩⟩⟩, ⟨"a\nb", "k2", ⟨⟨2, 2, 1⟩, ⟨2, 2, 1⟩⟩⟩]
    (by simp)

/-- C6: for every non-degenerate span whose start line lies past the last
line of the text, `notate` returns the empty string, and the surrounding
render still emits the divider, the header line and the footer line, with
the code frame blank. -/
theorem c6_out_of_bounds (f : Formatter)
    (hnd : ¬(f.span.start.offset = f.span.«end».offset ∧ f.span.start.offset = 0))
    (hpast : (rustLines f.text).length < f.span.start.line) :
    notate f = "" ∧
    renderFormatter f =
      repeat_str "•" 79 ++ "\n" ++ "bulloak error: " ++ f.err ++ "\n" ++ "\n" ++
        ("" ++ "\n") ++
        "--- (line " ++ toString f.span.start.line ++ ", column " ++
        toString f.span.start.column ++ ") ---" ++ "\n" := by
  have hn : (rustLines f.text).get? (f.span.start.line - 1) = none :=
    List.get?_eq_none.mpr (by omega)
  have hnot : notate f = "" := by
    unfold notate
    rw [hn]
  refine ⟨hnot, ?_⟩
  unfold renderFormatter
  rw [if_neg hnd, hnot]

/-- C6 witness: a span pointing at line 3 of a one-line text renders a
blank code frame between header and footer. -/
theorem c6_out_of_bounds_witness :
    notate ⟨"hello", "k", ⟨⟨7, 3, 1⟩, ⟨8, 3, 2⟩⟩⟩ = "" ∧
    renderFormatter ⟨"hello", "k", ⟨⟨7, 3, 1⟩, ⟨8, 3, 2⟩⟩⟩ =
      repeat_str "•" 79 ++ "\n" ++ "bulloak error: " ++ "k" ++ "\n" ++ "\n" ++
        ("" ++ "\n") ++
        "--- (line " ++ toString 3 ++ ", column " ++ toString 1 ++ ") ---" ++ "\n" :=
  c6_out_of_bounds ⟨"hello", "k", ⟨⟨7, 3, 1⟩, ⟨8, 3, 2⟩⟩⟩ (by decide) (by decide)

/-- C7: rendering is a pure function of its three inputs: two Formatters
agreeing on text, kind and span render to byte-identical strings. -/
theorem c7_deterministic (f g : Formatter)
    (ht : f.text = g.text) (hk : f.err = g.err) (hs : f.span = g.span) :
    renderFormatter f = renderFormatter g := by
  have hfg : f = g := by
    cases f
    cases g
    simp_all
  rw [hfg]

/-- C7 witness: two syntactically separate invocations on the same concrete
triple agree. -/
theorem c7_deterministic_witness :
    renderFormatter ⟨"hello", "k", ⟨⟨0, 1, 1⟩, ⟨4, 1, 5⟩⟩⟩ =
      renderFormatter ⟨"hello", "k", ⟨⟨0, 1, 1⟩, ⟨4, 1, 5⟩⟩⟩ :=
  c7_deterministic ⟨"hello", "k", ⟨⟨0, 1, 1⟩, ⟨4, 1, 5⟩⟩⟩
    ⟨"hello", "k", ⟨⟨0, 1, 1⟩, ⟨4, 1, 5⟩⟩⟩ rfl rfl rfl

/-- C8: the stage-to-aggregate conversions are lossless wrappings: each
conversion wraps the argument in its variant with the contained error
value(s) unchanged. -/
theorem c8_conversions_lossless :
    (∀ e, Error.fromTokenizer e = Error.Tokenize e) ∧
    (∀ e, Error.fromParser e = Error.Parse e) ∧
    (∀ es, Error.fromSemantics es = Error.Semantic es) :=
  ⟨fun _ => rfl, fun _ => rfl, fun _ => rfl⟩

/-- C9: rendering a `Semantic` aggregate built from the empty sequence
succeeds and produces the empty string — no divider, no message and no
panic. -/
theorem c9_semantic_empty_renders_empty :
    Error.fmt (Error.Semantic []) = some "" :=
  rfl

/-- C10 (amended): with both unsigned subtractions of `notate` checked,
spans with `start.line ≥ 1` and `start.column ≥ 1` never underflow and
produce exactly the `notate` output; a span with `start.line = 0`
underflows; and a span with `start.line ≥ 1` and `start.column = 0`
underflows exactly when its start line exists in the text — when the line
lookup misses, the column subtraction is never reached and the result is
the no-underflow empty frame, whatever the column. -/
theorem c10_subtraction_underflow (f : Formatter) :
    (1 ≤ f.span.start.line → 1 ≤ f.span.start.column →
      notateChecked f = some (notate f)) ∧
    (f.span.start.line = 0 → notateChecked f = none) ∧
    (f.span.start.column = 0 →
      ∀ line, (rustLines f.text).get? (f.span.start.line - 1) = some line →
        notateChecked f = none) ∧
    (1 ≤ f.span.start.line →
      (rustLines f.text).get? (f.span.start.line - 1) = none →
        notateChecked f = some "") := by
  refine ⟨?_, ?_, ?_, ?_⟩
  · intro hl hc
    cases hg : (rustLines f.text).get? (f.span.start.line - 1) with
    | none =>
      rw [List.get?_eq_getElem?] at hg
      simp [notateChecked, notate, checkedSub, hl, hg]
    | some l =>
      rw [List.get?_eq_getElem?] at hg
      simp [notateChecked, notate, checkedSub, hl, hc, hg]
  · intro h0
    simp [notateChecked, checkedSub, h0]
  · intro hc0 line hlg
    by_cases hl : 1 ≤ f.span.start.line
    · rw [List.get?_eq_getElem?] at hlg
      simp [notateChecked, checkedSub, hl, hlg, hc0]
    · simp [notateChecked, checkedSub, hl]
  · intro hl hg
    rw [List.get?_eq_getElem?] at hg
    simp [notateChecked, checkedSub, hl, hg]

/-- C10 (counterexample): a span with `start.column = 0` whose start line
does not exist in the text reaches `notate` without underflowing: the line
lookup misses first and the column subtraction is never evaluated. -/
theorem c10_column_zero_counterexample :
    (Formatter.mk "a" "k" ⟨⟨1, 2, 0⟩, ⟨1, 2, 0⟩⟩).span.start.column = 0 ∧
    notateChecked (Formatter.mk "a" "k" ⟨⟨1, 2, 0⟩, ⟨1, 2, 0⟩⟩) = some "" := by
  decide

/-- C10 witness: on a 1-based in-bounds span the checked algorithm agrees
with `notate`. -/
theorem c10_subtraction_underflow_witness :
    notateChecked ⟨"hello", "k", ⟨⟨0, 1, 1⟩, ⟨4, 1, 5⟩⟩⟩ =
      some (notate ⟨"hello", "k", ⟨⟨0, 1, 1⟩, ⟨4, 1, 5⟩⟩⟩) :=
  (c10_subtraction_underflow ⟨"hello", "k", ⟨⟨0, 1, 1⟩, ⟨4, 1, 5⟩⟩⟩).1
    (by decide) (by decide)

end Bulloak
